import Mathlib

set_option autoImplicit false

/-!
Shallow embedding of src/src/kube.rs: the Kluster cluster client, its
authentication variants (KlusterAuth), TLS client construction
(make_tlsclient), request sending (send_req, get, get_value, get_read,
delete) and response classification (check_resp).

External collaborators are modelled as explicit parameters:
the filesystem (FileSystem), the network (Net) and hyper URL parsing and
joining (UrlOps).  A call to Rust unwrap that can abort the process is
modelled by the PanicOr wrapper, whose panicked constructor is distinct
from every returned error value.
-/

/-- Opaque DER-encoded certificate material (rustls Certificate). -/
structure Certificate where
  bytes : List Nat
deriving DecidableEq, Repr

/-- Opaque private-key material (rustls PrivateKey). -/
structure PrivateKey where
  bytes : List Nat
deriving DecidableEq, Repr

/-- One entry of a PEM file: either a parseable certificate or an entry
that the PEM parser ignores. -/
inductive PemEntry where
  | valid (cert : Certificate)
  | invalid
deriving DecidableEq, Repr

/-- The filesystem: maps a path to the parsed-entry view of the file at
that path, or none when the file cannot be opened. -/
abbrev FileSystem : Type := String → Option (List PemEntry)

/-- The certificates of a PEM file that parse. -/
def pemValidCerts (entries : List PemEntry) : List Certificate :=
  entries.filterMap fun e =>
    match e with
    | .valid c => some c
    | .invalid => none

/-- The number of entries of a PEM file that fail to parse. -/
def pemInvalidCount (entries : List PemEntry) : Nat :=
  (entries.filter fun e =>
    match e with
    | .invalid => true
    | .valid _ => false).length

/-- rustls TLS client configuration: a root store of trusted CA
certificates and an optional client identity for mutual TLS. -/
structure TlsConfig where
  root_store : List Certificate
  client_cert : Option (List Certificate × PrivateKey)
deriving DecidableEq, Repr

/-- hyper_rustls TlsClient: wraps a rustls configuration. -/
structure TlsClient where
  cfg : TlsConfig
deriving DecidableEq, Repr

/-- TlsClient::new(): a fresh configuration with an empty root store and
no client identity. -/
def TlsClient.new : TlsClient := ⟨⟨[], none⟩⟩

/-- rustls RootCertStore.add_pem_file on an already-opened file: appends
every parseable certificate to the store and reports the counts
(added, ignored). -/
def add_pem_file (store : List Certificate) (entries : List PemEntry) :
    List Certificate × Nat × Nat :=
  (store ++ pemValidCerts entries, (pemValidCerts entries).length, pemInvalidCount entries)

/-- KlusterAuth: auth is either a token or a cert and key
(kube.rs lines 118-121). -/
inductive KlusterAuth where
  | Token (token : String)
  | CertKey (certs : List Certificate) (key : PrivateKey)
deriving DecidableEq, Repr

/-- KlusterAuth::with_token (kube.rs lines 124-126). -/
def KlusterAuth.with_token (token : String) : KlusterAuth :=
  .Token token

/-- KlusterAuth::with_cert_and_key (kube.rs lines 128-130): wraps the one
supplied certificate in a singleton chain. -/
def KlusterAuth.with_cert_and_key (cert : Certificate) (private_key : PrivateKey) :
    KlusterAuth :=
  .CertKey [cert] private_key

/-- The result of running code that may abort the process through a Rust
unwrap: panicked is an abort, not a returned value. -/
inductive PanicOr (α : Type) where
  | panicked
  | ok (val : α)
deriving DecidableEq, Repr

/-- A URL, kept abstract as its string rendering. -/
abbrev Url : Type := String

/-- hyper Url operations, external to the repository: parse of an
absolute URL and join of a relative path onto a base, each fallible. -/
structure UrlOps where
  parse : String → Option Url
  join : Url → String → Option Url

/-- HTTP method used by the client: only GET and DELETE occur. -/
inductive Method where
  | GET
  | DELETE
deriving DecidableEq, Repr

/-- An outgoing HTTP request as the code assembles it: method, joined
URL, the TLS client of the connector it is sent through, the optional
Authorization Bearer token header, and the optional read timeout. -/
structure HttpRequest where
  method : Method
  url : Url
  tls : TlsClient
  auth_header : Option String
  read_timeout : Option Nat
deriving DecidableEq

/-- An HTTP response: status code and the readable body. -/
structure Response where
  status : Nat
  body : String
deriving DecidableEq, Repr

/-- The network: maps an outgoing request to its response, or none when
hyper reports a transport error (connect, handshake, timeout). -/
abbrev Net : Type := HttpRequest → Option Response

/-- hyper Client built over an HTTPS connector: carries the TLS client
the connector was built from. -/
structure HttpClient where
  tls : TlsClient
deriving DecidableEq

/-- KubeErrNo variants used in kube.rs: Unauthorized and Unknown. -/
inductive KubeErrNo where
  | Unauthorized
  | Unknown
deriving DecidableEq, Repr

/-- Modelled from the spec: error.rs is not under src.  The spec section 7
names the error kinds; kube.rs shows the Kube constructor over KubeErrNo
and From conversions for URL-parse errors (UrlErr), hyper transport
errors (HyperErr) and serde deserialization errors (SerdeErr). -/
inductive KubeError where
  | Kube (err : KubeErrNo)
  | UrlErr
  | HyperErr
  | SerdeErr
deriving DecidableEq, Repr

/-- Kluster (kube.rs lines 133-139). -/
structure Kluster where
  name : String
  endpoint : Url
  auth : KlusterAuth
  cert_path : String
  client : HttpClient
deriving DecidableEq

/-- Kluster::make_tlsclient (kube.rs lines 143-160): opens the CA file
(unwrap: panics when the open fails), adds its PEM certificates to the
root store (printing a warning when some entries were ignored), and for
a CertKey credential installs the chain and key as the client identity. -/
def Kluster.make_tlsclient (fs : FileSystem) (cert_path : String) (auth : KlusterAuth) :
    PanicOr TlsClient :=
  match fs cert_path with
  | none => .panicked
  | some entries =>
    let tlsclient := TlsClient.new
    let added := add_pem_file tlsclient.cfg.root_store entries
    -- when added.2.2 > 0 a warning line is printed; the result is unchanged
    let cfg : TlsConfig := { root_store := added.1, client_cert := tlsclient.cfg.client_cert }
    match auth with
    | .CertKey cert key => .ok ⟨{ cfg with client_cert := some (cert, key) }⟩
    | .Token _ => .ok ⟨cfg⟩

/-- Kluster::new (kube.rs lines 162-171): builds the TLS client first
(propagating its panic), then parses the server URL -- a parse failure
becomes a URL error -- and stores every supplied field. -/
def Kluster.new (ops : UrlOps) (fs : FileSystem) (name : String) (cert_path : String)
    (server : String) (auth : KlusterAuth) : PanicOr (Except KubeError Kluster) :=
  match Kluster.make_tlsclient fs cert_path auth with
  | .panicked => .panicked
  | .ok tlsclient =>
    match ops.parse server with
    | none => .ok (.error .UrlErr)
    | some url =>
      .ok (.ok { name := name, endpoint := url, auth := auth,
                 cert_path := cert_path, client := ⟨tlsclient⟩ })

/-- The GET request value that Kluster::send_req assembles before calling
send (kube.rs lines 174-184): the joined URL, the shared client transport,
and an Authorization Bearer header exactly when the auth is a token. -/
def Kluster.send_req_built (ops : UrlOps) (k : Kluster) (path : String) :
    Option HttpRequest :=
  match ops.join k.endpoint path with
  | none => none
  | some url =>
    let req : HttpRequest :=
      { method := .GET, url := url, tls := k.client.tls,
        auth_header := none, read_timeout := none }
    match k.auth with
    | .Token token => some { req with auth_header := some token }
    | .CertKey _ _ => some req

/-- Kluster::send_req (kube.rs lines 173-186): a URL-join failure becomes
a URL error, a hyper send failure becomes a transport error. -/
def Kluster.send_req (ops : UrlOps) (net : Net) (k : Kluster) (path : String) :
    Except KubeError Response :=
  match Kluster.send_req_built ops k path with
  | none => .error .UrlErr
  | some req =>
    match net req with
    | some resp => .ok resp
    | none => .error .HyperErr

/-- Kluster::check_resp (kube.rs lines 188-196).  The self receiver is
unused by the source body. -/
def Kluster.check_resp (resp : Response) : Except KubeError Response :=
  if resp.status = 200 then .ok resp
  else if resp.status = 401 then .error (.Kube .Unauthorized)
  else .error (.Kube .Unknown)

/-- Kluster::get (kube.rs lines 199-205): send, classify, then
deserialize the body (serde_json::from_reader is the fromReader
parameter; a parse failure becomes a deserialize error). -/
def Kluster.get {T : Type} (ops : UrlOps) (net : Net) (fromReader : String → Option T)
    (k : Kluster) (path : String) : Except KubeError T :=
  match Kluster.send_req ops net k path with
  | .error e => .error e
  | .ok resp =>
    match Kluster.check_resp resp with
    | .error e => .error e
    | .ok resp =>
      match fromReader resp.body with
      | some v => .ok v
      | none => .error .SerdeErr

/-- serde_json::Value, kept abstract. -/
structure JsonValue where
  raw : String
deriving DecidableEq, Repr

/-- Kluster::get_value (kube.rs lines 238-242): same pipeline as get with
an untyped JSON value as the deserialization target. -/
def Kluster.get_value (ops : UrlOps) (net : Net) (fromReader : String → Option JsonValue)
    (k : Kluster) (path : String) : Except KubeError JsonValue :=
  match Kluster.send_req ops net k path with
  | .error e => .error e
  | .ok resp =>
    match Kluster.check_resp resp with
    | .error e => .error e
    | .ok resp =>
      match fromReader resp.body with
      | some v => .ok v
      | none => .error .SerdeErr

/-- The request value the timeout branch of Kluster::get_read assembles
(kube.rs lines 211-227): join the URL, build a brand-new TLS client from
the stored cert path and auth (propagating its panic), set the bearer
header for a token auth, and set the read timeout. -/
def Kluster.get_read_timeout_built (ops : UrlOps) (fs : FileSystem) (k : Kluster)
    (path : String) (d : Nat) : PanicOr (Except KubeError HttpRequest) :=
  match ops.join k.endpoint path with
  | none => .ok (.error .UrlErr)
  | some url =>
    match Kluster.make_tlsclient fs k.cert_path k.auth with
    | .panicked => .panicked
    | .ok tlsclient =>
      let req : HttpRequest :=
        { method := .GET, url := url, tls := tlsclient,
          auth_header := none, read_timeout := none }
      let req :=
        match k.auth with
        | .Token token => { req with auth_header := some token }
        | .CertKey _ _ => req
      .ok (.ok { req with read_timeout := some d })

/-- Kluster::get_read (kube.rs lines 209-235): with a timeout, build a
fresh request over a fresh transport, send it (start and send failures
become transport errors) and classify; without a timeout, send through
the shared client and classify. -/
def Kluster.get_read (ops : UrlOps) (net : Net) (fs : FileSystem) (k : Kluster)
    (path : String) (timeout : Option Nat) : PanicOr (Except KubeError Response) :=
  match timeout with
  | some d =>
    match Kluster.get_read_timeout_built ops fs k path d with
    | .panicked => .panicked
    | .ok (.error e) => .ok (.error e)
    | .ok (.ok req) =>
      match net req with
      | none => .ok (.error .HyperErr)
      | some resp => .ok (Kluster.check_resp resp)
  | none =>
    .ok ((Kluster.send_req ops net k path).bind Kluster.check_resp)

/-- The DELETE request value that Kluster::delete assembles before
calling send (kube.rs lines 246-256): same header injection as GET. -/
def Kluster.delete_built (ops : UrlOps) (k : Kluster) (path : String) :
    Option HttpRequest :=
  match ops.join k.endpoint path with
  | none => none
  | some url =>
    let req : HttpRequest :=
      { method := .DELETE, url := url, tls := k.client.tls,
        auth_header := none, read_timeout := none }
    match k.auth with
    | .Token token => some { req with auth_header := some token }
    | .CertKey _ _ => some req

/-- Kluster::delete (kube.rs lines 245-258): sends the DELETE and
returns the raw response without classification. -/
def Kluster.delete (ops : UrlOps) (net : Net) (k : Kluster) (path : String) :
    Except KubeError Response :=
  match Kluster.delete_built ops k path with
  | none => .error .UrlErr
  | some req =>
    match net req with
    | some resp => .ok resp
    | none => .error .HyperErr

/-!
Concrete fixtures used by the witness theorems.
-/

/-- Concrete URL operations: parsing succeeds with the string itself and
joining returns the relative path. -/
def opsId : UrlOps := ⟨fun s => some s, fun _ p => some p⟩

/-- A concrete CA certificate. -/
def certCA : Certificate := ⟨[1]⟩

/-- A concrete client certificate. -/
def certA : Certificate := ⟨[2]⟩

/-- A concrete client private key. -/
def keyA : PrivateKey := ⟨[3]⟩

/-- A filesystem whose every file holds one parseable certificate. -/
def fsOne : FileSystem := fun _ => some [PemEntry.valid certCA]

/-- A filesystem with no openable files. -/
def fsNone : FileSystem := fun _ => none

/-- A network answering every request with the given status. -/
def netConst (s : Nat) : Net := fun _ => some ⟨s, "body"⟩

/-- A token-auth Kluster over fsOne. -/
def kTok : Kluster :=
  { name := "n", endpoint := "h", auth := .Token "tok",
    cert_path := "ca.pem", client := ⟨⟨⟨[certCA], none⟩⟩⟩ }

/-- A cert-auth Kluster over fsOne. -/
def kCert : Kluster :=
  { name := "n", endpoint := "h", auth := .CertKey [certA] keyA,
    cert_path := "ca.pem", client := ⟨⟨⟨[certCA], some ([certA], keyA)⟩⟩⟩ }

/-- The request the timeout branch of get_read builds for kTok over
fsOne with timeout 5. -/
def rWit5 : HttpRequest :=
  { method := .GET, url := "x", tls := ⟨⟨[certCA], none⟩⟩,
    auth_header := some "tok", read_timeout := some 5 }

/-- The GET request that send_req builds for kTok. -/
def rWitGet : HttpRequest :=
  { method := .GET, url := "x", tls := ⟨⟨[certCA], none⟩⟩,
    auth_header := some "tok", read_timeout := none }

/-- The DELETE request that delete builds for kTok. -/
def rWitDel : HttpRequest :=
  { method := .DELETE, url := "x", tls := ⟨⟨[certCA], none⟩⟩,
    auth_header := some "tok", read_timeout := none }

/-- The DELETE request that delete builds for kCert. -/
def rWitDelCert : HttpRequest :=
  { method := .DELETE, url := "x", tls := ⟨⟨[certCA], some ([certA], keyA)⟩⟩,
    auth_header := none, read_timeout := none }

/-!
Shared characterization lemmas for the request builders and the TLS
client constructor, used by several of the claim theorems below.
-/

/-- Characterization of make_tlsclient: a panic exactly when the CA file
cannot be opened, otherwise a client whose root store holds the
parseable certificates of the file and whose client identity is the
CertKey material when present. -/
theorem make_tlsclient_eq (fs : FileSystem) (cert_path : String) (auth : KlusterAuth) :
    Kluster.make_tlsclient fs cert_path auth =
      match fs cert_path with
      | none => .panicked
      | some entries =>
        .ok ⟨{ root_store := pemValidCerts entries,
               client_cert :=
                 match auth with
                 | .CertKey cert key => some (cert, key)
                 | .Token _ => none }⟩ := by
  unfold Kluster.make_tlsclient
  cases fs cert_path with
  | none => rfl
  | some entries => cases auth <;> rfl

/-- Characterization of the request built by send_req. -/
theorem send_req_built_eq (ops : UrlOps) (k : Kluster) (path : String) :
    Kluster.send_req_built ops k path =
      (ops.join k.endpoint path).map fun url =>
        { method := .GET, url := url, tls := k.client.tls,
          auth_header :=
            match k.auth with
            | .Token token => some token
            | .CertKey _ _ => none,
          read_timeout := none } := by
  unfold Kluster.send_req_built
  cases ops.join k.endpoint path <;> cases k.auth <;> rfl

/-- Characterization of the request built by delete. -/
theorem delete_built_eq (ops : UrlOps) (k : Kluster) (path : String) :
    Kluster.delete_built ops k path =
      (ops.join k.endpoint path).map fun url =>
        { method := .DELETE, url := url, tls := k.client.tls,
          auth_header :=
            match k.auth with
            | .Token token => some token
            | .CertKey _ _ => none,
          read_timeout := none } := by
  unfold Kluster.delete_built
  cases ops.join k.endpoint path <;> cases k.auth <;> rfl

/-- Characterization of the request built by the timeout branch of
get_read. -/
theorem get_read_timeout_built_eq (ops : UrlOps) (fs : FileSystem) (k : Kluster)
    (path : String) (d : Nat) :
    Kluster.get_read_timeout_built ops fs k path d =
      match ops.join k.endpoint path with
      | none => .ok (.error .UrlErr)
      | some url =>
        match Kluster.make_tlsclient fs k.cert_path k.auth with
        | .panicked => .panicked
        | .ok tlsclient =>
          .ok (.ok { method := .GET, url := url, tls := tlsclient,
                     auth_header :=
                       match k.auth with
                       | .Token token => some token
                       | .CertKey _ _ => none,
                     read_timeout := some d }) := by
  unfold Kluster.get_read_timeout_built
  cases ops.join k.endpoint path with
  | none => rfl
  | some url =>
    cases k.auth with
    | Token token =>
      cases Kluster.make_tlsclient fs k.cert_path (KlusterAuth.Token token) <;> rfl
    | CertKey certs key =>
      cases Kluster.make_tlsclient fs k.cert_path (KlusterAuth.CertKey certs key) <;> rfl

/-!
Claim theorems.
-/

/-- C1 counterexample: the claim fails on the code.  At a CA file that
opens but contains zero parseable certificates, make_tlsclient succeeds
with an empty root store instead of failing with a configuration error,
and at a path that cannot be opened it panics instead of returning an
error value. -/
theorem c1_counterexample :
    Kluster.make_tlsclient (fun _ => some [PemEntry.invalid]) "ca.pem" (.Token "tok")
      = .ok ⟨⟨[], none⟩⟩
    ∧ Kluster.make_tlsclient fsNone "ca.pem" (.Token "tok") = .panicked :=
  ⟨rfl, rfl⟩

/-- C1 (amended): transport construction panics when the CA file cannot
be opened (no configuration-error value exists in the code), and
succeeds for every openable CA file -- including one with zero parseable
certificates -- with a root store holding exactly the parseable
certificates of the file. -/
theorem c1_make_tlsclient_spec (fs : FileSystem) (cert_path : String) (auth : KlusterAuth) :
    (fs cert_path = none → Kluster.make_tlsclient fs cert_path auth = .panicked)
    ∧ (∀ entries, fs cert_path = some entries →
        ∃ t : TlsClient, Kluster.make_tlsclient fs cert_path auth = .ok t
          ∧ t.cfg.root_store = pemValidCerts entries) := by
  constructor
  · intro h
    rw [make_tlsclient_eq, h]
  · intro entries h
    rw [make_tlsclient_eq, h]
    exact ⟨_, rfl, rfl⟩

/-- C1 witness: the amended claim evaluated at concrete filesystems. -/
theorem c1_make_tlsclient_spec_witness :
    Kluster.make_tlsclient fsNone "ca.pem" (.Token "tok") = .panicked
    ∧ ∃ t : TlsClient,
        Kluster.make_tlsclient fsOne "ca.pem" (.Token "tok") = .ok t
        ∧ t.cfg.root_store = pemValidCerts [PemEntry.valid certCA] :=
  ⟨(c1_make_tlsclient_spec fsNone "ca.pem" (.Token "tok")).1 rfl,
   (c1_make_tlsclient_spec fsOne "ca.pem" (.Token "tok")).2 [PemEntry.valid certCA] rfl⟩

/-- C2 counterexample: the claim fails on the code.  A 503 response maps
to the generic Unknown error, which does not carry the status: the
outcome for 503 is identical to the outcome for 500. -/
theorem c2_counterexample :
    Kluster.check_resp ⟨503, "body"⟩ = .error (.Kube .Unknown)
    ∧ Kluster.check_resp ⟨503, "body"⟩ = Kluster.check_resp ⟨500, "other"⟩ := by
  constructor <;> rfl

/-- C2 (amended): check_resp maps status 200 to success passing the
response through unchanged, 401 to the Unauthorized error, and every
other status to the generic Unknown error, which retains no status
value. -/
theorem c2_check_resp_spec (resp : Response) :
    (resp.status = 200 → Kluster.check_resp resp = .ok resp)
    ∧ (resp.status = 401 → Kluster.check_resp resp = .error (.Kube .Unauthorized))
    ∧ (resp.status ≠ 200 → resp.status ≠ 401 →
        Kluster.check_resp resp = .error (.Kube .Unknown)) := by
  refine ⟨fun h => ?_, fun h => ?_, fun h1 h2 => ?_⟩
  · simp [Kluster.check_resp, h]
  · simp [Kluster.check_resp, h]
  · simp [Kluster.check_resp, h1, h2]

/-- C2 witness: the amended claim evaluated at statuses 200, 401, 503. -/
theorem c2_check_resp_spec_witness :
    Kluster.check_resp ⟨200, "b"⟩ = .ok ⟨200, "b"⟩
    ∧ Kluster.check_resp ⟨401, "b"⟩ = .error (.Kube .Unauthorized)
    ∧ Kluster.check_resp ⟨503, "b"⟩ = .error (.Kube .Unknown) :=
  ⟨(c2_check_resp_spec ⟨200, "b"⟩).1 rfl,
   (c2_check_resp_spec ⟨401, "b"⟩).2.1 rfl,
   (c2_check_resp_spec ⟨503, "b"⟩).2.2 (by decide) (by decide)⟩

/-- C9 counterexample: the claim fails on the code.  At a CA path the
filesystem cannot open and a server string the URL parser rejects, new
panics inside make_tlsclient instead of returning the URL error. -/
theorem c9_counterexample :
    Kluster.new ⟨fun _ => none, fun _ p => some p⟩ fsNone "n" "ca.pem" "bad" (.Token "tok")
      = .panicked
    ∧ (PanicOr.panicked : PanicOr (Except KubeError Kluster)) ≠ .ok (.error .UrlErr) :=
  ⟨rfl, fun h => PanicOr.noConfusion h⟩

/-- C9 (amended): provided the CA file can be opened (otherwise
construction panics before the URL is parsed), new returns the URL error
exactly when the server string does not parse, and otherwise a Kluster
whose stored name, endpoint, auth and cert path equal the supplied
arguments. -/
theorem c9_new_spec (ops : UrlOps) (fs : FileSystem) (name cert_path server : String)
    (auth : KlusterAuth) (entries : List PemEntry) (hfs : fs cert_path = some entries) :
    (ops.parse server = none →
        Kluster.new ops fs name cert_path server auth = .ok (.error .UrlErr))
    ∧ (∀ url, ops.parse server = some url →
        ∃ kl : Kluster, Kluster.new ops fs name cert_path server auth = .ok (.ok kl)
          ∧ kl.name = name ∧ kl.endpoint = url ∧ kl.auth = auth
          ∧ kl.cert_path = cert_path) := by
  constructor
  · intro hp
    unfold Kluster.new
    rw [make_tlsclient_eq, hfs, hp]
  · intro url hp
    unfold Kluster.new
    rw [make_tlsclient_eq, hfs, hp]
    exact ⟨_, rfl, rfl, rfl, rfl, rfl⟩

/-- C9 witness: the amended claim evaluated at a concrete profile. -/
theorem c9_new_spec_witness :
    ∃ kl : Kluster, Kluster.new opsId fsOne "n" "ca.pem" "h" (.Token "tok")
      = .ok (.ok kl) ∧ kl.name = "n" ∧ kl.endpoint = "h"
      ∧ kl.auth = .Token "tok" ∧ kl.cert_path = "ca.pem" :=
  (c9_new_spec opsId fsOne "n" "ca.pem" "h" (.Token "tok")
    [PemEntry.valid certCA] rfl).2 "h" rfl

/-- C10: with_cert_and_key wraps the single supplied certificate in a
chain of length exactly one, though the CertKey constructor itself
admits a chain of any length. -/
theorem c10_with_cert_and_key_singleton (cert : Certificate) (key : PrivateKey) :
    KlusterAuth.with_cert_and_key cert key = .CertKey [cert] key
    ∧ ([cert] : List Certificate).length = 1 :=
  ⟨rfl, rfl⟩

/-- C3: every request built by send_req, by the timeout branch of
get_read, or by delete carries the Authorization Bearer header with
exactly the stored token when the auth is token-based, and no
Authorization header when it is certificate-based. -/
theorem c3_auth_header (ops : UrlOps) (fs : FileSystem) (k : Kluster) (path : String)
    (r : HttpRequest)
    (hr : Kluster.send_req_built ops k path = some r
        ∨ Kluster.delete_built ops k path = some r
        ∨ ∃ d, Kluster.get_read_timeout_built ops fs k path d = .ok (.ok r)) :
    r.auth_header =
      match k.auth with
      | .Token token => some token
      | .CertKey _ _ => none := by
  rcases hr with hr | hr | ⟨d, hr⟩
  · rw [send_req_built_eq] at hr
    cases hjoin : ops.join k.endpoint path with
    | none => rw [hjoin] at hr; cases hr
    | some url =>
      rw [hjoin, Option.map_some'] at hr
      injection hr with h
      subst h
      rfl
  · rw [delete_built_eq] at hr
    cases hjoin : ops.join k.endpoint path with
    | none => rw [hjoin] at hr; cases hr
    | some url =>
      rw [hjoin, Option.map_some'] at hr
      injection hr with h
      subst h
      rfl
  · rw [get_read_timeout_built_eq] at hr
    cases hjoin : ops.join k.endpoint path with
    | none => rw [hjoin] at hr; simp at hr
    | some url =>
      rw [hjoin] at hr
      cases hm : Kluster.make_tlsclient fs k.cert_path k.auth with
      | panicked => rw [hm] at hr; simp at hr
      | ok t =>
        rw [hm] at hr
        injection hr with h
        injection h with h2
        subst h2
        rfl

/-- C3 witness: the GET request built for the concrete token client. -/
theorem c3_auth_header_witness :
    rWitGet.auth_header =
      match kTok.auth with
      | .Token token => some token
      | .CertKey _ _ => none :=
  c3_auth_header opsId fsOne kTok "x" rWitGet (Or.inl rfl)

/-- C4: delete never applies check_resp: whatever status the server
returns, the response handle is handed back as is, carrying that status,
while get on a response of the same non-200 non-401 status returns the
classification error. -/
theorem c4_delete_no_classification {T : Type} (ops : UrlOps) (net : Net) (k : Kluster)
    (path : String) (fromReader : String → Option T) (r : HttpRequest) (resp : Response)
    (hbuilt : Kluster.delete_built ops k path = some r) (hnet : net r = some resp) :
    Kluster.delete ops net k path = .ok resp
    ∧ (∀ rg respg, Kluster.send_req_built ops k path = some rg → net rg = some respg →
        respg.status = resp.status → resp.status ≠ 200 → resp.status ≠ 401 →
        Kluster.get ops net fromReader k path = .error (.Kube .Unknown)) := by
  constructor
  · unfold Kluster.delete
    simp only [hbuilt, hnet]
  · intro rg respg hg hng hstat h200 h401
    unfold Kluster.get Kluster.send_req
    simp only [hg, hng]
    simp [Kluster.check_resp, hstat, h200, h401]

/-- C4 witness: against a 403-answering network, delete yields the
403 handle while get yields the classification error. -/
theorem c4_delete_no_classification_witness :
    Kluster.delete opsId (netConst 403) kTok "x" = .ok ⟨403, "body"⟩
    ∧ Kluster.get opsId (netConst 403) (fun s => some s) kTok "x"
        = .error (.Kube .Unknown) :=
  ⟨(c4_delete_no_classification opsId (netConst 403) kTok "x" (fun s => some s)
      rWitDel ⟨403, "body"⟩ rfl rfl).1,
   (c4_delete_no_classification opsId (netConst 403) kTok "x" (fun s => some s)
      rWitDel ⟨403, "body"⟩ rfl rfl).2 rWitGet ⟨403, "body"⟩ rfl rfl rfl
      (by decide) (by decide)⟩

/-- C5: the timeout branch of get_read builds its request over a
brand-new TLS client built from the stored cert path and auth, with the
read timeout set on that request, and the result of get_read with a
timeout does not depend on the shared client stored in the Kluster,
which is left untouched. -/
theorem c5_fresh_transport (ops : UrlOps) (net : Net) (fs : FileSystem) (k : Kluster)
    (path : String) (d : Nat) :
    (∀ r, Kluster.get_read_timeout_built ops fs k path d = .ok (.ok r) →
        Kluster.make_tlsclient fs k.cert_path k.auth = .ok r.tls
        ∧ r.read_timeout = some d)
    ∧ (∀ c : HttpClient,
        Kluster.get_read ops net fs { k with client := c } path (some d)
          = Kluster.get_read ops net fs k path (some d)) := by
  constructor
  · intro r hr
    rw [get_read_timeout_built_eq] at hr
    cases hjoin : ops.join k.endpoint path with
    | none => rw [hjoin] at hr; simp at hr
    | some url =>
      rw [hjoin] at hr
      cases hm : Kluster.make_tlsclient fs k.cert_path k.auth with
      | panicked => rw [hm] at hr; simp at hr
      | ok t =>
        rw [hm] at hr
        injection hr with h
        injection h with h2
        subst h2
        exact ⟨rfl, rfl⟩
  · intro c
    rfl

/-- C5 witness: the concrete request built for kTok with timeout 5 uses
the freshly built TLS client and carries the timeout. -/
theorem c5_fresh_transport_witness :
    Kluster.make_tlsclient fsOne kTok.cert_path kTok.auth = .ok rWit5.tls
    ∧ rWit5.read_timeout = some 5 :=
  (c5_fresh_transport opsId (netConst 200) fsOne kTok "x" 5).1 rWit5 rfl

/-- C6: get_read without a timeout is exactly the classified GET
pipeline of get and get_value -- send through the shared client via
send_req, classify via check_resp -- returning the handle unread, while
get and get_value run the same pipeline followed only by the
deserialization step. -/
theorem c6_get_read_no_timeout (ops : UrlOps) (net : Net) (fs : FileSystem) (k : Kluster)
    (path : String) :
    Kluster.get_read ops net fs k path none
      = .ok ((Kluster.send_req ops net k path).bind Kluster.check_resp)
    ∧ (∀ (T : Type) (fromReader : String → Option T),
        Kluster.get ops net fromReader k path
          = ((Kluster.send_req ops net k path).bind Kluster.check_resp).bind
              fun resp =>
                match fromReader resp.body with
                | some v => Except.ok v
                | none => Except.error KubeError.SerdeErr)
    ∧ (∀ fromReader : String → Option JsonValue,
        Kluster.get_value ops net fromReader k path
          = ((Kluster.send_req ops net k path).bind Kluster.check_resp).bind
              fun resp =>
                match fromReader resp.body with
                | some v => Except.ok v
                | none => Except.error KubeError.SerdeErr) := by
  refine ⟨rfl, fun T fromReader => ?_, fun fromReader => ?_⟩
  · cases hs : Kluster.send_req ops net k path with
    | error e => simp [Kluster.get, Except.bind, hs]
    | ok resp =>
      cases hc : Kluster.check_resp resp with
      | error e => simp [Kluster.get, Except.bind, hs, hc]
      | ok r2 =>
        cases hf : fromReader r2.body with
        | none => simp [Kluster.get, Except.bind, hs, hc, hf]
        | some v => simp [Kluster.get, Except.bind, hs, hc, hf]
  · cases hs : Kluster.send_req ops net k path with
    | error e => simp [Kluster.get_value, Except.bind, hs]
    | ok resp =>
      cases hc : Kluster.check_resp resp with
      | error e => simp [Kluster.get_value, Except.bind, hs, hc]
      | ok r2 =>
        cases hf : fromReader r2.body with
        | none => simp [Kluster.get_value, Except.bind, hs, hc, hf]
        | some v => simp [Kluster.get_value, Except.bind, hs, hc, hf]

/-- C7: get classifies before deserializing: given the sent GET request
and its response, a non-200 status yields exactly the classification
error, a 200 status yields the deserialization of the body, and a
deserialize error can only arise from a 200 response. -/
theorem c7_get_classifies_first {T : Type} (ops : UrlOps) (net : Net)
    (fromReader : String → Option T) (k : Kluster) (path : String)
    (r : HttpRequest) (resp : Response)
    (hbuilt : Kluster.send_req_built ops k path = some r) (hnet : net r = some resp) :
    (resp.status ≠ 200 → ∃ e, Kluster.check_resp resp = .error e
        ∧ Kluster.get ops net fromReader k path = .error e)
    ∧ (resp.status = 200 →
        Kluster.get ops net fromReader k path
          = match fromReader resp.body with
            | some v => Except.ok v
            | none => Except.error KubeError.SerdeErr)
    ∧ (Kluster.get ops net fromReader k path = .error .SerdeErr → resp.status = 200) := by
  have hsend : Kluster.send_req ops net k path = .ok resp := by
    unfold Kluster.send_req
    simp only [hbuilt, hnet]
  refine ⟨fun h200 => ?_, fun h200 => ?_, fun hserde => ?_⟩
  · by_cases h401 : resp.status = 401
    · refine ⟨.Kube .Unauthorized, ?_, ?_⟩
      · simp [Kluster.check_resp, h200, h401]
      · simp [Kluster.get, hsend, Kluster.check_resp, h200, h401]
    · refine ⟨.Kube .Unknown, ?_, ?_⟩
      · simp [Kluster.check_resp, h200, h401]
      · simp [Kluster.get, hsend, Kluster.check_resp, h200, h401]
  · cases hf : fromReader resp.body with
    | some v => simp [Kluster.get, hsend, Kluster.check_resp, h200, hf]
    | none => simp [Kluster.get, hsend, Kluster.check_resp, h200, hf]
  · by_cases h200 : resp.status = 200
    · exact h200
    · exfalso
      by_cases h401 : resp.status = 401 <;>
        simp [Kluster.get, hsend, Kluster.check_resp, h200, h401] at hserde

/-- C7 witness: against a 200-answering network with an identity
deserializer, get returns the body. -/
theorem c7_get_classifies_first_witness :
    Kluster.get opsId (netConst 200) (fun s => some s) kTok "x" = Except.ok "body" :=
  (c7_get_classifies_first opsId (netConst 200) (fun s => some s) kTok "x"
    rWitGet ⟨200, "body"⟩ rfl rfl).2.1 rfl

/-- C8: make_tlsclient attaches a client identity exactly for CertKey:
the stored chain and key become the client identity of the
configuration, while for Token nothing beyond the root store is set; and
a CertKey client never adds a bearer header to its requests. -/
theorem c8_client_identity (fs : FileSystem) (cert_path : String) (entries : List PemEntry)
    (hfs : fs cert_path = some entries) :
    (∀ certs key, ∃ t : TlsClient,
        Kluster.make_tlsclient fs cert_path (.CertKey certs key) = .ok t
        ∧ t.cfg.client_cert = some (certs, key)
        ∧ t.cfg.root_store = pemValidCerts entries)
    ∧ (∀ token, ∃ t : TlsClient,
        Kluster.make_tlsclient fs cert_path (.Token token) = .ok t
        ∧ t.cfg.client_cert = none
        ∧ t.cfg.root_store = pemValidCerts entries)
    ∧ (∀ (ops : UrlOps) (k : Kluster) (path : String) certs key (r : HttpRequest),
        k.auth = .CertKey certs key →
        (Kluster.send_req_built ops k path = some r
          ∨ Kluster.delete_built ops k path = some r) →
        r.auth_header = none) := by
  refine ⟨fun certs key => ?_, fun token => ?_,
    fun ops k path certs key r hauth hr => ?_⟩
  · rw [make_tlsclient_eq, hfs]
    exact ⟨_, rfl, rfl, rfl⟩
  · rw [make_tlsclient_eq, hfs]
    exact ⟨_, rfl, rfl, rfl⟩
  · rcases hr with hr | hr
    · rw [send_req_built_eq] at hr
      cases hjoin : ops.join k.endpoint path with
      | none => rw [hjoin] at hr; cases hr
      | some url =>
        rw [hjoin, Option.map_some'] at hr
        injection hr with h
        subst h
        simp [hauth]
    · rw [delete_built_eq] at hr
      cases hjoin : ops.join k.endpoint path with
      | none => rw [hjoin] at hr; cases hr
      | some url =>
        rw [hjoin, Option.map_some'] at hr
        injection hr with h
        subst h
        simp [hauth]

/-- C8 witness: the concrete cert client gets its chain and key as the
TLS client identity and its DELETE request carries no bearer header. -/
theorem c8_client_identity_witness :
    (∃ t : TlsClient,
        Kluster.make_tlsclient fsOne "ca.pem" (.CertKey [certA] keyA) = .ok t
        ∧ t.cfg.client_cert = some ([certA], keyA)
        ∧ t.cfg.root_store = pemValidCerts [PemEntry.valid certCA])
    ∧ rWitDelCert.auth_header = none :=
  ⟨(c8_client_identity fsOne "ca.pem" [PemEntry.valid certCA] rfl).1 [certA] keyA,
   (c8_client_identity fsOne "ca.pem" [PemEntry.valid certCA] rfl).2.2 opsId kCert "x"
     [certA] keyA rWitDelCert rfl (Or.inr rfl)⟩
